import Mathlib

/-!
Shallow embedding of the zknon relay backend (src/server.js, which contains two
near-duplicate server variants, and src/unnamed/part_000, a third variant).

Variant 1 of server.js: ESM server with `guard` (fixed one-second window counter),
`doWithdraw` (fetch blockhash, build v0 transaction, sign, send) and `handleRelay`
(validation plus one automatic retry when the failure message matches the
blockhash-expiry regex).

Variant 2 of server.js: CJS server with `checkRateLimit` (minimum-gap limiter),
`handleWithdraw` (validation, legacy transaction, single submission, confirmation
polling by signature via `confirmBySignature`, soft success on timeout).

part_000: relay routes always answer 501 relay_not_configured.

External library behaviour (base58 decoding, ed25519 key derivation and signing,
transaction serialization) is embedded at the interface level: base58 is decoded
for real; key derivation and signing are parameters (`derive`, `SignFn`) since the
underlying scheme is deterministic; serialization is an injective component list.
-/

deriving instance DecidableEq for Except

/-! ## JavaScript number model -/

/-- A JavaScript number: a finite rational, NaN, or one of the infinities. -/
inductive JsNum where
  | num (q : ℚ)
  | nan
  | inf
  | neginf
deriving DecidableEq, Repr

/-- JS falsiness of a number: 0 and NaN are falsy. -/
def jsFalsy : JsNum → Bool
  | .num q => q = 0
  | .nan => true
  | _ => false

/-- The JS comparison `x <= 0` (false for NaN and +Infinity). -/
def jsLeZero : JsNum → Bool
  | .num q => q ≤ 0
  | .nan => false
  | .inf => false
  | .neginf => true

/-- `Number.isFinite`. -/
def jsFinite : JsNum → Bool
  | .num _ => true
  | _ => false

/-- `BigInt(x)` on a JS number, as used when encoding lamports into a transfer
instruction: succeeds exactly on finite integers, otherwise throws. -/
def jsNumToBigInt : JsNum → Except String Int
  | .num q => if q.den = 1 then .ok q.num else .error "Cannot convert a non-integer to a BigInt"
  | .nan => .error "Cannot convert NaN to a BigInt"
  | .inf => .error "Cannot convert Infinity to a BigInt"
  | .neginf => .error "Cannot convert -Infinity to a BigInt"

/-- `BigInt(x.toString())`: succeeds on finite integers below 1e21 (beyond which
JS `toString` switches to exponential form, which `BigInt` rejects). -/
def bigIntOfToString : JsNum → Except String Int
  | .num q => if q.den = 1 ∧ q.num.natAbs < 10 ^ 21 then .ok q.num else .error "Cannot convert to a BigInt"
  | .nan => .error "Cannot convert NaN to a BigInt"
  | .inf => .error "Cannot convert Infinity to a BigInt"
  | .neginf => .error "Cannot convert -Infinity to a BigInt"

/-- `Math.round(q)` = floor(q + 1/2), using floor division. -/
def jsRound (q : ℚ) : Int :=
  let r := q + 1 / 2
  Int.fdiv r.num r.den

/-! ## Base58 decoding (bs58.decode / PublicKey parsing) -/

/-- The bitcoin base58 alphabet used by bs58. -/
def b58Alphabet : List Char :=
  "123456789ABCDEFGHJKLMNPQRSTUVWXYZabcdefghijkmnopqrstuvwxyz".toList

/-- Value of one base58 digit, none for characters outside the alphabet. -/
def b58DigitVal (c : Char) : Option Nat :=
  let i := b58Alphabet.indexOf c
  if i < 58 then some i else none

/-- Base58 digits to a natural number, none on any invalid character. -/
def b58Val (cs : List Char) : Option Nat :=
  cs.foldl
    (fun acc c =>
      match acc, b58DigitVal c with
      | some n, some d => some (n * 58 + d)
      | _, _ => none)
    (some 0)

/-- Big-endian bytes of a natural number; the fuel bounds recursion depth and is
always at least the digit count at every use site. -/
def natBytesAux : Nat → Nat → List Nat
  | 0, _ => []
  | f + 1, n => if n = 0 then [] else natBytesAux f (n / 256) ++ [n % 256]

/-- `bs58.decode`: leading ones become leading zero bytes, the remainder is a
base58 number rendered big-endian; none on an invalid character. -/
def b58decode (s : String) : Option (List Nat) :=
  let cs := s.toList
  let z := (cs.takeWhile (fun c => c = '1')).length
  let rest := cs.dropWhile (fun c => c = '1')
  match b58Val rest with
  | none => none
  | some n => some (List.replicate z 0 ++ natBytesAux rest.length n)

/-- JS `String.prototype.trim()`, as a whitespace strip on the character list. -/
def jsTrim (s : String) : String :=
  String.mk (((s.toList.dropWhile Char.isWhitespace).reverse.dropWhile Char.isWhitespace).reverse)

/-- `new PublicKey(s)`: base58-decode and require exactly 32 bytes. -/
def parsePubkey (s : String) : Option (List Nat) :=
  match b58decode s with
  | some bs => if bs.length = 32 then some bs else none
  | none => none

/-! ## Key custody (POOL_KEYPAIR loading, both variants) -/

/-- An ed25519 keypair as held by @solana/web3.js: a 64-byte secret key whose
last 32 bytes are the public key. -/
structure Keypair where
  secretKey : List Nat
  publicKey : List Nat
deriving DecidableEq, Repr

/-- `Keypair.fromSecretKey`: requires exactly 64 bytes; the public key is the
trailing 32 bytes. -/
def fromSecretKey (sk : List Nat) : Except String Keypair :=
  if sk.length = 64 then .ok ⟨sk, sk.drop 32⟩ else .error "bad secret key size"

/-- `Keypair.fromSeed`: requires exactly 32 bytes and derives the public key by
the (deterministic) ed25519 derivation `derive`. -/
def fromSeed (derive : List Nat → List Nat) (seed : List Nat) : Except String Keypair :=
  if seed.length = 32 then .ok ⟨seed ++ derive seed, derive seed⟩ else .error "bad seed size"

/-- Variant 1 key loading: decode POOL_SECRET_B58 (empty when unset), require 64
or 32 bytes, then fromSecretKey or fromSeed respectively; any failure aborts
startup (process.exit(1)). -/
def loadKeypairV1 (derive : List Nat → List Nat) (secretB58 : Option String) : Except String Keypair :=
  match b58decode (secretB58.getD "") with
  | none => .error "Non-base58 character"
  | some sk =>
    if sk.length ≠ 64 ∧ sk.length ≠ 32 then
      .error "POOL_SECRET_B58 must be base58 of 64 or 32 bytes"
    else if sk.length = 64 then fromSecretKey sk
    else fromSeed derive sk

/-- Variant 2 key loading: POOL_SECRET_B58 must be set, decode its trim, require
32 or 64 bytes, then unconditionally `Keypair.fromSecretKey(decoded)`; any throw
escapes module initialization and the process fails to start. -/
def loadKeypairV2 (secretB58 : Option String) : Except String Keypair :=
  match secretB58 with
  | none => .error "Missing POOL_SECRET_B58 in env."
  | some s =>
    if s = "" then .error "Missing POOL_SECRET_B58 in env."
    else
      match b58decode (jsTrim s) with
      | none => .error "Non-base58 character"
      | some d =>
        if d.length ≠ 64 ∧ d.length ≠ 32 then
          .error "POOL_SECRET_B58 must decode to 32 or 64 bytes"
        else fromSecretKey d

/-- Variant 1 startup state: the loaded keypair and the pool public key actually
used (POOL_ADDRESS when configured nonempty, else the derived one). -/
structure V1State where
  keypair : Keypair
  poolPubkey : List Nat
deriving DecidableEq, Repr

/-- Variant 1 module initialization: load the keypair, then
`POOL_PUBKEY = new PublicKey(process.env.POOL_ADDRESS || POOL_KEYPAIR.publicKey.toBase58())`.
No comparison between the configured and the derived address is performed. -/
def startupV1 (derive : List Nat → List Nat) (secretB58 poolAddress : Option String) :
    Except String V1State :=
  match loadKeypairV1 derive secretB58 with
  | .error m => .error m
  | .ok kp =>
    let a := poolAddress.getD ""
    if a = "" then .ok ⟨kp, kp.publicKey⟩
    else
      match parsePubkey a with
      | some b => .ok ⟨kp, b⟩
      | none => .error "Invalid public key input"

/-! ## Rate admission gates -/

/-- Mutable state of the one-second-window counters of variant 1 and part_000. -/
structure GuardState where
  windowStart : Nat
  calls : Nat
deriving DecidableEq, Repr

/-- Variant 1 `guard()`: reset the window after one second, pre-increment the
counter, and throw (second component false) when the incremented counter
exceeds TX_RATELIMIT. -/
def guardStep (limit : Nat) (g : GuardState) (now : Nat) : GuardState × Bool :=
  let g1 := if now - g.windowStart > 1000 then GuardState.mk now 0 else g
  let c := g1.calls + 1
  (⟨g1.windowStart, c⟩, !(c > limit : Bool))

/-- part_000 `guard()`: same window reset, but the comparison uses the counter
value before the post-increment (`calls++ > TX_RATELIMIT`). -/
def guardStepP0 (limit : Nat) (g : GuardState) (now : Nat) : GuardState × Bool :=
  let g1 := if now - g.windowStart > 1000 then GuardState.mk now 0 else g
  (⟨g1.windowStart, g1.calls + 1⟩, !(g1.calls > limit : Bool))

/-- Run a sequence of guard admissions (one per arriving request timestamp),
returning the final state and the per-request admission flags. -/
def runGuards (step : Nat → GuardState → Nat → GuardState × Bool) (limit : Nat)
    (g : GuardState) : List Nat → GuardState × List Bool
  | [] => (g, [])
  | t :: ts =>
    let s := step limit g t
    let r := runGuards step limit s.1 ts
    (r.1, s.2 :: r.2)

/-- Variant 2 `checkRateLimit()`: no-op when TX_RATELIMIT is 0, otherwise throw
while the gap since the last accepted transaction is below the minimum, else
record the new timestamp. -/
def checkRateLimit (minGapSec lastTxTs now : Nat) : Except String Nat :=
  if minGapSec = 0 then .ok lastTxTs
  else if now - lastTxTs < minGapSec * 1000 then
    .error ("Too many requests, wait " ++
      toString ((minGapSec * 1000 - (now - lastTxTs) + 999) / 1000) ++ "s")
  else .ok now

/-! ## Network calls, transaction building and signing -/

/-- One observable RPC call issued by a withdrawal request. -/
inductive Call where
  | getLatestBlockhash
  | sendRawTransaction (raw : List String)
  | getSignatureStatuses (sig : String)
deriving DecidableEq, Repr

/-- Is this call a transaction submission? -/
def isSendCall : Call → Bool
  | .sendRawTransaction _ => true
  | _ => false

/-- Number of submissions in a call trace. -/
def countSends (l : List Call) : Nat := l.countP isSendCall

/-- A deterministic signing primitive: secret key and serialized message to a
signature (ed25519 signing is deterministic). -/
def SignFn : Type := List Nat → List String → String

/-- Injective component encoding of the variant 1 v0 transaction message. -/
def serializeMsgV0 (payer : List Nat) (bh : String) (toPk : List Nat) (lam : Int) : List String :=
  ["v0", toString payer, bh, toString toPk, toString lam]

/-- Variant 1 signed wire bytes: the one pool signature followed by the message
components. Rebinding any component (hash included) changes the bytes. -/
def serializeSignedTx (signFn : SignFn) (secret payer toPk : List Nat) (lam : Int) (bh : String) :
    List String :=
  let m := serializeMsgV0 payer bh toPk lam
  signFn secret m :: m

/-- Variant 2 signed wire bytes (legacy transaction, fee payer = pool keypair). -/
def serializeTxV2 (signFn : SignFn) (kp : Keypair) (bh : String) (toPk : List Nat) (lam : Int) :
    List String :=
  let m := ["legacy", toString kp.publicKey, bh, toString toPk, toString lam]
  signFn kp.secretKey m :: m

/-- Scripted network environment of one variant 1 request: the i-th
getLatestBlockhash answer and the i-th sendRawTransaction answer (which may
depend on the submitted bytes). -/
structure Script where
  blockhash : Nat → Except String (String × Nat)
  send : Nat → List String → Except String String

/-- Per-request counters of consumed script entries. -/
structure NetState where
  glb : Nat
  snd : Nat
deriving DecidableEq, Repr

/-- Success payload of variant 1 `doWithdraw`. -/
structure WOk where
  signature : String
  lastValidBlockHeight : Nat
deriving DecidableEq, Repr

/-- Variant 1 `doWithdraw`: parse the recipient, fetch the latest blockhash,
build the transfer instruction (lamports encoded via BigInt), build and sign the
v0 transaction, and submit the serialized bytes. Returns the outcome, the
updated script counters and the trace of network calls. -/
def doWithdraw (env : Script) (pool secret : List Nat) (signFn : SignFn) (st : NetState)
    (recipientStr : String) (amount : JsNum) :
    Except String WOk × NetState × List Call :=
  match parsePubkey recipientStr with
  | none => (.error "Invalid public key input", st, [])
  | some recipient =>
    match env.blockhash st.glb with
    | .error m => (.error m, ⟨st.glb + 1, st.snd⟩, [Call.getLatestBlockhash])
    | .ok (bh, lvbh) =>
      match jsNumToBigInt amount with
      | .error m => (.error m, ⟨st.glb + 1, st.snd⟩, [Call.getLatestBlockhash])
      | .ok lam =>
        let raw := serializeSignedTx signFn secret pool recipient lam bh
        match env.send st.snd raw with
        | .error m =>
          (.error m, ⟨st.glb + 1, st.snd + 1⟩,
            [Call.getLatestBlockhash, Call.sendRawTransaction raw])
        | .ok sig =>
          (.ok ⟨sig, lvbh⟩, ⟨st.glb + 1, st.snd + 1⟩,
            [Call.getLatestBlockhash, Call.sendRawTransaction raw])

/-- Character-list prefix test. -/
def isPrefixList : List Char → List Char → Bool
  | [], _ => true
  | _ :: _, [] => false
  | a :: as, b :: bs => a = b && isPrefixList as bs

/-- Character-list substring test (naive search). -/
def hasInfixList (pat : List Char) : List Char → Bool
  | [] => isPrefixList pat []
  | c :: cs => isPrefixList pat (c :: cs) || hasInfixList pat cs

/-- Lower-cased character list of a string. -/
def lowerChars (s : String) : List Char := s.toList.map Char.toLower

/-- The retry classifier of variant 1 `handleRelay`: the case-insensitive regex
/block height exceeded|Blockhash not found|expired/i on the error message,
embedded as case-insensitive substring tests. -/
def containsCI (s pat : String) : Bool :=
  hasInfixList (lowerChars pat) (lowerChars s)

/-- Hash-expiry classification of an error message. -/
def isExpiryMsg (m : String) : Bool :=
  containsCI m "block height exceeded" || containsCI m "Blockhash not found" || containsCI m "expired"

/-- Variant 1 HTTP response of the relay routes. -/
inductive RelayResp where
  | ok (signature : String) (lastValidBlockHeight : Nat) (retry : Option Nat)
  | fail (status : Nat) (error : String)
deriving DecidableEq, Repr

/-- HTTP status of a variant 1 response (res.json defaults to 200). -/
def RelayResp.status : RelayResp → Nat
  | .ok _ _ _ => 200
  | .fail s _ => s

/-- JS falsiness of the possibly-absent amountLamports field. -/
def optFalsy (x : Option JsNum) : Bool :=
  match x with
  | none => true
  | some a => jsFalsy a

/-- The JS test `amountLamports <= 0` on the possibly-absent field. -/
def optLeZero (x : Option JsNum) : Bool :=
  match x with
  | none => false
  | some a => jsLeZero a

/-- The post-validation body of variant 1 `handleRelay`: run `doWithdraw`; on a
failure whose message is hash-expiry classified, run `doWithdraw` once more on
the same request body (consuming the next script entries) and report `retry: 1`
on success; every other failure (and a failing retry) becomes a 502. -/
def relayCore (env : Script) (pool secret : List Nat) (signFn : SignFn) (r : String)
    (a : JsNum) : RelayResp × List Call :=
  match doWithdraw env pool secret signFn ⟨0, 0⟩ r a with
  | (.ok w, _, tr) => (.ok w.signature w.lastValidBlockHeight none, tr)
  | (.error msg, st1, tr1) =>
    if isExpiryMsg msg then
      match doWithdraw env pool secret signFn st1 r a with
      | (.ok w, _, tr2) => (.ok w.signature w.lastValidBlockHeight (some 1), tr1 ++ tr2)
      | (.error m2, _, tr2) => (.fail 502 m2, tr1 ++ tr2)
    else (.fail 502 msg, tr1)

/-- Variant 1 `handleRelay`: admit through `guard` (a throw is caught and, not
matching the expiry regex, answered 502), validate recipient and amountLamports,
then run `relayCore`. Returns the response, the network-call trace and the guard
state after the request. -/
def handleRelay (env : Script) (pool secret : List Nat) (signFn : SignFn) (limit : Nat)
    (g : GuardState) (now : Nat) (recipient : Option String) (amountLamports : Option JsNum) :
    RelayResp × List Call × GuardState :=
  let gs := guardStep limit g now
  if gs.2 then
    if recipient.getD "" = "" then (.fail 400 "recipient required", [], gs.1)
    else if optFalsy amountLamports || optLeZero amountLamports then
      (.fail 400 "amountLamports must be > 0", [], gs.1)
    else
      let c := relayCore env pool secret signFn (recipient.getD "") (amountLamports.getD JsNum.nan)
      (c.1, c.2, gs.1)
  else (.fail 502 "Rate limit", [], gs.1)

/-! ## Variant 2: confirmation polling and handleWithdraw -/

/-- Is a `getSignatureStatuses` entry final
(`confirmationStatus` confirmed or finalized)? -/
def isFinalStatus : Option String → Bool
  | some st => st = "confirmed" || st = "finalized"
  | none => false

/-- The polling loop of `confirmBySignature`: at most `fuel` polls starting at
poll index k; a final status returns it, otherwise sleep 1500ms and poll again;
exhausted budget throws Confirmation timeout. Returns the outcome and the poll
index after the last poll. -/
def confirmAux (statuses : Nat → Option String) : Nat → Nat → Except String String × Nat
  | 0, k => (.error "Confirmation timeout", k)
  | fuel + 1, k =>
    match statuses k with
    | some st =>
      if st = "confirmed" ∨ st = "finalized" then (.ok st, k + 1)
      else confirmAux statuses fuel (k + 1)
    | none => confirmAux statuses fuel (k + 1)

/-- Variant 2 `confirmBySignature(signature, timeoutMs)`: polls every 1500ms
while elapsed time is below the budget, so at most ceil(timeoutMs/1500) polls;
the query is by signature alone (`getSignatureStatuses([signature])`). -/
def confirmBySignature (statuses : Nat → Option String) (timeoutMs : Nat) :
    Except String String × Nat :=
  confirmAux statuses ((timeoutMs + 1499) / 1500) 0

/-- Scripted network environment of one variant 2 request: one blockhash fetch,
one submission (answer may depend on the bytes), and the per-poll signature
statuses of the broadcast signature. -/
structure ScriptV2 where
  blockhash : Except String String
  send : List String → Except String String
  statuses : Nat → Option String

/-- Variant 2 HTTP response shape. -/
structure V2Resp where
  status : Nat
  ok : Bool
  withdrawSignature : Option String
  note : Option String
  error : Option String
deriving DecidableEq, Repr

/-- Success response helper of variant 2 (res.json, status 200). -/
def v2ok (sig : String) (note : Option String) : V2Resp :=
  ⟨200, true, some sig, note, none⟩

/-- Error response helper of variant 2. -/
def v2err (status : Nat) (msg : String) : V2Resp :=
  ⟨status, false, none, none, some msg⟩

/-- Variant 2 request body (`{to, target, amount, amountLamports}`;
depositSignature is only logged). -/
structure BodyV2 where
  toAddr : Option String
  target : Option String
  amount : Option JsNum
  amountLamports : Option JsNum

/-- JS `a || b` on an optional string. -/
def strOr (x : Option String) (d : String) : String :=
  match x with
  | some s => if s = "" then d else s
  | none => d

/-- `(body.to || body.target || "").trim()`. -/
def v2Target (b : BodyV2) : String :=
  jsTrim (strOr b.toAddr (strOr b.target ""))

/-- The lamports computation of `handleWithdraw`: amountLamports (when present)
through `BigInt(raw.toString())` with a throw becoming a 500; otherwise the SOL
amount when finite and positive, rounded to lamports; otherwise a 400. -/
def v2Lamports (b : BodyV2) : Except V2Resp Int :=
  match b.amountLamports with
  | some raw =>
    match bigIntOfToString raw with
    | .ok n => .ok n
    | .error m => .error (v2err 500 m)
  | none =>
    match b.amount.getD JsNum.nan with
    | JsNum.num q =>
      if 0 < q then .ok (jsRound (q * 1000000000))
      else .error (v2err 400 "amount or amountLamports required")
    | _ => .error (v2err 400 "amount or amountLamports required")

/-- Variant 2 `handleWithdraw`: rate check, target and amount validation,
recipient parse, blockhash fetch, build and sign a legacy transaction, submit,
then confirm by signature with a 60s budget; a confirmation timeout still
answers 200 with the signature and a pending note. Any thrown error is caught
and answered as a 500. Returns ((response, call trace), new lastTxTs). -/
def handleWithdraw (env : ScriptV2) (signFn : SignFn) (kp : Keypair)
    (minGapSec lastTxTs now : Nat) (b : BodyV2) :
    (V2Resp × List Call) × Nat :=
  match checkRateLimit minGapSec lastTxTs now with
  | .error m => ((v2err 500 m, []), lastTxTs)
  | .ok newLast =>
    let target := v2Target b
    if target = "" then ((v2err 400 "target required", []), newLast)
    else
      match v2Lamports b with
      | .error resp => ((resp, []), newLast)
      | .ok lam =>
        if lam ≤ 0 then ((v2err 400 "invalid amount", []), newLast)
        else
          match parsePubkey target with
          | none => ((v2err 500 "Invalid public key input", []), newLast)
          | some toPk =>
            match env.blockhash with
            | .error m => ((v2err 500 m, [Call.getLatestBlockhash]), newLast)
            | .ok bh =>
              let raw := serializeTxV2 signFn kp bh toPk lam
              match env.send raw with
              | .error m =>
                ((v2err 500 m, [Call.getLatestBlockhash, Call.sendRawTransaction raw]), newLast)
              | .ok sig =>
                let c := confirmBySignature env.statuses 60000
                let polls := List.replicate c.2 (Call.getSignatureStatuses sig)
                match c.1 with
                | .ok _ =>
                  ((v2ok sig none,
                    Call.getLatestBlockhash :: Call.sendRawTransaction raw :: polls), newLast)
                | .error _ =>
                  ((v2ok sig (some "Broadcasted, confirmation pending on-chain."),
                    Call.getLatestBlockhash :: Call.sendRawTransaction raw :: polls), newLast)

/-! ## part_000: unconfigured relay -/

/-- part_000 relay response shape. -/
structure P0Resp where
  status : Nat
  ok : Bool
  error : String
  hint : String
deriving DecidableEq, Repr

/-- part_000 `handleRelay`: a constant 501 relay_not_configured answer; the body
is read but never used and no network request is made. -/
def handleRelayP0 (_recipient : Option String) (_amountLamports : Option JsNum) :
    P0Resp × List Call :=
  (⟨501, false, "relay_not_configured",
    "Set RELAYER_PRIVATE_KEY dan implementasikan penarikan dari pool pada backend."⟩, [])

/-- doWithdraw with a recipient that fails to parse: throws before any call. -/
lemma doWithdraw_badRecipient (env : Script) (pool secret : List Nat) (sf : SignFn)
    (st : NetState) (r : String) (a : JsNum) (hpk : parsePubkey r = none) :
    doWithdraw env pool secret sf st r a = (.error "Invalid public key input", st, []) := by
  unfold doWithdraw
  rw [hpk]

/-- doWithdraw with an amount the transfer encoding rejects: the blockhash has
already been fetched when the throw happens. -/
lemma doWithdraw_badAmount (env : Script) (pool secret : List Nat) (sf : SignFn)
    (st : NetState) (r : String) (a : JsNum) (rb : List Nat) (bh : String) (l : Nat) (m : String)
    (hpk : parsePubkey r = some rb) (hbh : env.blockhash st.glb = .ok (bh, l))
    (hlam : jsNumToBigInt a = .error m) :
    doWithdraw env pool secret sf st r a =
      (.error m, ⟨st.glb + 1, st.snd⟩, [Call.getLatestBlockhash]) := by
  unfold doWithdraw
  rw [hpk, hbh, hlam]

/-- doWithdraw whose submission is answered with an error. -/
lemma doWithdraw_send_error (env : Script) (pool secret : List Nat) (sf : SignFn)
    (st : NetState) (r : String) (a : JsNum) (rb : List Nat) (bh : String) (l : Nat)
    (lam : Int) (m : String)
    (hpk : parsePubkey r = some rb) (hbh : env.blockhash st.glb = .ok (bh, l))
    (hlam : jsNumToBigInt a = .ok lam)
    (hs : env.send st.snd (serializeSignedTx sf secret pool rb lam bh) = .error m) :
    doWithdraw env pool secret sf st r a =
      (.error m, ⟨st.glb + 1, st.snd + 1⟩,
        [Call.getLatestBlockhash,
         Call.sendRawTransaction (serializeSignedTx sf secret pool rb lam bh)]) := by
  unfold doWithdraw
  rw [hpk, hbh, hlam]
  simp only [hs]

/-- doWithdraw whose submission is accepted. -/
lemma doWithdraw_send_ok (env : Script) (pool secret : List Nat) (sf : SignFn)
    (st : NetState) (r : String) (a : JsNum) (rb : List Nat) (bh : String) (l : Nat)
    (lam : Int) (sig : String)
    (hpk : parsePubkey r = some rb) (hbh : env.blockhash st.glb = .ok (bh, l))
    (hlam : jsNumToBigInt a = .ok lam)
    (hs : env.send st.snd (serializeSignedTx sf secret pool rb lam bh) = .ok sig) :
    doWithdraw env pool secret sf st r a =
      (.ok ⟨sig, l⟩, ⟨st.glb + 1, st.snd + 1⟩,
        [Call.getLatestBlockhash,
         Call.sendRawTransaction (serializeSignedTx sf secret pool rb lam bh)]) := by
  unfold doWithdraw
  rw [hpk, hbh, hlam]
  simp only [hs]

/-- Any single doWithdraw run submits at most once. -/
lemma doWithdraw_sends_le_one (env : Script) (pool secret : List Nat) (sf : SignFn)
    (st : NetState) (r : String) (a : JsNum) :
    countSends (doWithdraw env pool secret sf st r a).2.2 ≤ 1 := by
  unfold doWithdraw countSends
  simp only []
  split
  · simp
  · split
    · simp [isSendCall]
    · split
      · simp [isSendCall]
      · split <;> simp [isSendCall]

/-- relayCore submits at most twice. -/
lemma relayCore_sends_le_two (env : Script) (pool secret : List Nat) (sf : SignFn)
    (r : String) (a : JsNum) :
    countSends (relayCore env pool secret sf r a).2 ≤ 2 := by
  rcases hd : doWithdraw env pool secret sf ⟨0, 0⟩ r a with ⟨res1, st1, tr1⟩
  have b1 := doWithdraw_sends_le_one env pool secret sf ⟨0, 0⟩ r a
  rw [hd] at b1
  unfold relayCore
  rw [hd]
  cases res1 with
  | ok w =>
    exact b1.trans one_le_two
  | error msg =>
    dsimp only
    by_cases hm : isExpiryMsg msg = true
    · rw [if_pos hm]
      rcases hd2 : doWithdraw env pool secret sf st1 r a with ⟨res2, st2, tr2⟩
      have b2 := doWithdraw_sends_le_one env pool secret sf st1 r a
      rw [hd2] at b2
      have b1x : countSends tr1 ≤ 1 := b1
      have b2x : countSends tr2 ≤ 1 := b2
      cases res2 <;> dsimp only <;> simp only [countSends, List.countP_append] at b1x b2x ⊢ <;> omega
    · rw [if_neg hm]
      exact b1.trans one_le_two

/-- handleRelay submits at most twice, whatever the environment answers. -/
lemma handleRelay_sends_le_two (env : Script) (pool secret : List Nat) (sf : SignFn)
    (limit : Nat) (g : GuardState) (now : Nat) (rec : Option String) (amt : Option JsNum) :
    countSends (handleRelay env pool secret sf limit g now rec amt).2.1 ≤ 2 := by
  unfold handleRelay
  simp only []
  split
  · split
    · simp [countSends]
    · split
      · simp [countSends]
      · exact relayCore_sends_le_two env pool secret sf (rec.getD "") (amt.getD JsNum.nan)
  · simp [countSends]

/-- handleRelay reduces to relayCore once the gate admits and validation passes. -/
lemma handleRelay_valid (env : Script) (pool secret : List Nat) (sf : SignFn) (limit : Nat)
    (g : GuardState) (now : Nat) (r : String) (a : JsNum)
    (hg : (guardStep limit g now).2 = true) (hr : r ≠ "")
    (hf : jsFalsy a = false) (hl : jsLeZero a = false) :
    handleRelay env pool secret sf limit g now (some r) (some a) =
      ((relayCore env pool secret sf r a).1, (relayCore env pool secret sf r a).2,
        (guardStep limit g now).1) := by
  unfold handleRelay
  simp only [hg, if_true, Option.getD_some, optFalsy, optLeZero, hf, hl, Bool.or_self,
    Bool.false_eq_true, if_false, if_neg hr]

/-- relayCore on a first-attempt failure that is not expiry-classified: no retry,
the error surfaces as a 502. -/
lemma relayCore_error_final (env : Script) (pool secret : List Nat) (sf : SignFn)
    (r : String) (a : JsNum) (m : String) (st1 : NetState) (tr1 : List Call)
    (hd : doWithdraw env pool secret sf ⟨0, 0⟩ r a = (.error m, st1, tr1))
    (hm : isExpiryMsg m = false) :
    relayCore env pool secret sf r a = (.fail 502 m, tr1) := by
  unfold relayCore
  rw [hd]
  dsimp only
  rw [hm]
  rw [if_neg (by decide)]

/-- relayCore when the first submission fails with an expiry-classified message
and the rebuilt, re-signed second attempt is accepted: single retry, fresh
blockhash, two submissions. -/
lemma relayCore_retry_ok (env : Script) (pool secret : List Nat) (sf : SignFn)
    (r : String) (a : JsNum) (rb : List Nat) (lam : Int) (h1 : String) (l1 : Nat)
    (m : String) (h2 : String) (l2 : Nat) (s2 : String)
    (hpk : parsePubkey r = some rb) (hlam : jsNumToBigInt a = .ok lam)
    (hb0 : env.blockhash 0 = .ok (h1, l1))
    (hs0 : env.send 0 (serializeSignedTx sf secret pool rb lam h1) = .error m)
    (hm : isExpiryMsg m = true)
    (hb1 : env.blockhash 1 = .ok (h2, l2))
    (hs1 : env.send 1 (serializeSignedTx sf secret pool rb lam h2) = .ok s2) :
    relayCore env pool secret sf r a =
      (.ok s2 l2 (some 1),
        [Call.getLatestBlockhash,
         Call.sendRawTransaction (serializeSignedTx sf secret pool rb lam h1),
         Call.getLatestBlockhash,
         Call.sendRawTransaction (serializeSignedTx sf secret pool rb lam h2)]) := by
  have d1 := doWithdraw_send_error env pool secret sf ⟨0, 0⟩ r a rb h1 l1 lam m hpk hb0 hlam hs0
  have d2 := doWithdraw_send_ok env pool secret sf ⟨1, 1⟩ r a rb h2 l2 lam s2 hpk hb1 hlam hs1
  unfold relayCore
  rw [d1]
  dsimp only [Nat.zero_add]
  rw [hm, if_pos rfl, d2]
  rfl

/-- The signed wire bytes determine the reference hash they were built against. -/
lemma serializeSignedTx_hash_inj (sf : SignFn) (secret pool rb : List Nat) (lam : Int)
    (h1 h2 : String)
    (h : serializeSignedTx sf secret pool rb lam h1 = serializeSignedTx sf secret pool rb lam h2) :
    h1 = h2 := by
  have h3 := congrArg (fun l : List String => l.getD 3 "") h
  simpa [serializeSignedTx, serializeMsgV0] using h3

/-- Polling that never sees a final status exhausts its whole budget and throws
Confirmation timeout. -/
lemma confirmAux_timeout (statuses : Nat → Option String)
    (hst : ∀ i, isFinalStatus (statuses i) = false) :
    ∀ fuel k, confirmAux statuses fuel k = (.error "Confirmation timeout", k + fuel) := by
  intro fuel
  induction fuel with
  | zero => intro k; simp [confirmAux]
  | succ f ih =>
    intro k
    unfold confirmAux
    cases hs : statuses k with
    | none =>
      dsimp only
      rw [ih (k + 1)]
      congr 1
      omega
    | some st =>
      have hni := hst k
      rw [hs] at hni
      simp only [isFinalStatus, Bool.or_eq_false_iff, decide_eq_false_iff_not] at hni
      dsimp only
      rw [if_neg (by tauto), ih (k + 1)]
      congr 1
      omega

/-- The 60-second confirmation budget allows exactly 40 polls at one per 1.5s. -/
lemma confirmBySignature_timeout (statuses : Nat → Option String)
    (hst : ∀ i, isFinalStatus (statuses i) = false) :
    confirmBySignature statuses 60000 = (.error "Confirmation timeout", 40) := by
  unfold confirmBySignature
  norm_num
  exact confirmAux_timeout statuses hst 40 0

/-- Splitting a guard run over a concatenation of arrival lists. -/
lemma runGuards_append (step : Nat → GuardState → Nat → GuardState × Bool) (limit : Nat)
    (xs ys : List Nat) :
    ∀ g, runGuards step limit g (xs ++ ys) =
      ((runGuards step limit (runGuards step limit g xs).1 ys).1,
        (runGuards step limit g xs).2 ++ (runGuards step limit (runGuards step limit g xs).1 ys).2) := by
  induction xs with
  | nil => intro g; simp [runGuards]
  | cons t ts ih =>
    intro g
    simp [runGuards, ih]

/-- A same-instant burst that stays within the window and the limit: the
variant 1 guard admits every request, incrementing the counter once each. -/
lemma runGuards_guardStep_all_admitted (limit t : Nat) :
    ∀ m c, c + m ≤ limit →
      runGuards guardStep limit ⟨t, c⟩ (List.replicate m t) = (⟨t, c + m⟩, List.replicate m true) := by
  intro m
  induction m with
  | zero => intro c hc; simp [runGuards]
  | succ k ih =>
    intro c hc
    have hstep : guardStep limit ⟨t, c⟩ t = (⟨t, c + 1⟩, true) := by
      unfold guardStep
      simp only [Nat.sub_self]
      rw [if_neg (by omega)]
      simp only [Prod.mk.injEq]
      refine ⟨trivial, ?_⟩
      simp only [Bool.not_eq_true']
      simp only [decide_eq_false_iff_not]
      omega
    simp only [List.replicate_succ, runGuards, hstep]
    rw [ih (c + 1) (by omega)]
    have hc2 : c + 1 + k = c + (k + 1) := by omega
    rw [hc2]

/-- Same-instant burst through the part_000 guard: every request whose
pre-increment counter is within the limit is admitted. -/
lemma runGuards_guardStepP0_all_admitted (limit t : Nat) :
    ∀ m c, c + m ≤ limit + 1 →
      runGuards guardStepP0 limit ⟨t, c⟩ (List.replicate m t) = (⟨t, c + m⟩, List.replicate m true) := by
  intro m
  induction m with
  | zero => intro c hc; simp [runGuards]
  | succ k ih =>
    intro c hc
    have hstep : guardStepP0 limit ⟨t, c⟩ t = (⟨t, c + 1⟩, true) := by
      unfold guardStepP0
      simp only [Nat.sub_self]
      rw [if_neg (by omega)]
      simp only [Prod.mk.injEq]
      refine ⟨trivial, ?_⟩
      simp only [Bool.not_eq_true']
      simp only [decide_eq_false_iff_not]
      omega
    simp only [List.replicate_succ, runGuards, hstep]
    rw [ih (c + 1) (by omega)]
    have hc2 : c + 1 + k = c + (k + 1) := by omega
    rw [hc2]

/-- handleWithdraw when broadcast succeeds but no poll within the 60s budget is
final: a 200 soft success carrying the signature and the pending note. -/
lemma handleWithdraw_timeout_soft (env : ScriptV2) (sf : SignFn) (kp : Keypair)
    (mg lt now : Nat) (b : BodyV2) (lam : Int) (pk : List Nat) (bh sig : String) (nl : Nat)
    (hrate : checkRateLimit mg lt now = .ok nl)
    (ht : v2Target b ≠ "")
    (hl : v2Lamports b = .ok lam)
    (hpos : 0 < lam)
    (hpk : parsePubkey (v2Target b) = some pk)
    (hbh : env.blockhash = .ok bh)
    (hsend : env.send (serializeTxV2 sf kp bh pk lam) = .ok sig)
    (hstat : ∀ i, isFinalStatus (env.statuses i) = false) :
    handleWithdraw env sf kp mg lt now b =
      ((v2ok sig (some "Broadcasted, confirmation pending on-chain."),
        Call.getLatestBlockhash :: Call.sendRawTransaction (serializeTxV2 sf kp bh pk lam) ::
          List.replicate 40 (Call.getSignatureStatuses sig)), nl) := by
  have hc := confirmBySignature_timeout env.statuses hstat
  unfold handleWithdraw
  rw [hrate]
  dsimp only
  rw [if_neg ht, hl]
  dsimp only
  rw [if_neg (not_le.mpr hpos), hpk, hbh]
  dsimp only
  rw [hsend]
  dsimp only
  rw [hc]

/-- handleWithdraw with a non-empty target that fails public-key parsing: the
thrown error is caught and answered 500 with no network call made. -/
lemma handleWithdraw_badTarget (env : ScriptV2) (sf : SignFn) (kp : Keypair)
    (mg lt now : Nat) (b : BodyV2) (lam : Int) (nl : Nat)
    (hrate : checkRateLimit mg lt now = .ok nl)
    (ht : v2Target b ≠ "")
    (hl : v2Lamports b = .ok lam)
    (hpos : 0 < lam)
    (hpk : parsePubkey (v2Target b) = none) :
    handleWithdraw env sf kp mg lt now b = ((v2err 500 "Invalid public key input", []), nl) := by
  unfold handleWithdraw
  rw [hrate]
  dsimp only
  rw [if_neg ht, hl]
  dsimp only
  rw [if_neg (not_le.mpr hpos), hpk]

/-! ## Concrete inputs used by witnesses and counterexamples -/

/-- The system-program-shaped address: 32 base58 ones, decoding to 32 zero bytes. -/
def ones32 : String := "11111111111111111111111111111111"

/-- 64 base58 ones, decoding to a 64-byte all-zero secret key. -/
def ones64 : String :=
  "1111111111111111111111111111111111111111111111111111111111111111"

/-- A valid 32-byte address distinct from the all-zero one (31 ones then a 2). -/
def addrOne : String := "11111111111111111111111111111112"

/-- 32 zero bytes. -/
def zeros32 : List Nat := List.replicate 32 0

/-- 64 zero bytes. -/
def zeros64 : List Nat := List.replicate 64 0

/-- A concrete deterministic signing function. -/
def sfTest : SignFn := fun _ _ => "SIGBYTES"

/-- The keypair loaded from the all-zero 64-byte secret. -/
def kpTest : Keypair := ⟨zeros64, zeros32⟩

/-- A concrete stand-in for the ed25519 seed derivation. -/
def idDerive : List Nat → List Nat := fun l => l

/-- A variant 1 script whose answers are never consumed. -/
def envNull : Script :=
  { blockhash := fun _ => .error "unused", send := fun _ _ => .error "unused" }

/-- A variant 1 script answering every blockhash fetch and accepting every send. -/
def envBhOnly : Script :=
  { blockhash := fun _ => .ok ("H1", 100), send := fun _ _ => .ok "SIG" }

/-- A variant 1 script: first send rejected with a blockhash-expiry message, the
second (after a fresh hash) accepted. -/
def envRetry : Script :=
  { blockhash := fun i => if i = 0 then .ok ("H1", 100) else .ok ("H2", 200),
    send := fun i _ => if i = 0 then .error "Blockhash not found" else .ok "SIG2" }

/-- A variant 2 script: broadcast accepted, no poll ever final. -/
def envV2Timeout : ScriptV2 :=
  { blockhash := .ok "HH", send := fun _ => .ok "SIGX", statuses := fun _ => none }

/-- A variant 2 script whose send is rejected with a hash-expiry-classified
message. -/
def envV2Expiry : ScriptV2 :=
  { blockhash := .ok "H1", send := fun _ => .error "block height exceeded",
    statuses := fun _ => none }

/-- A variant 2 request body: recipient in `to`, amount in `amountLamports`. -/
def bodyV2Test : BodyV2 := ⟨some ones32, none, none, some (JsNum.num 1000000)⟩

/-! ## Claim theorems -/

/-- C10: in the src/unnamed/part_000 variant, every POST to /relay or
/relay-withdraw returns HTTP 501 with ok:false and error relay_not_configured,
regardless of the request body, and no reference hash is fetched, no
transaction built, signed, or submitted (empty network-call trace). -/
theorem p0_relay_always_501 (r : Option String) (a : Option JsNum) :
    handleRelayP0 r a =
      (⟨501, false, "relay_not_configured",
        "Set RELAYER_PRIVATE_KEY dan implementasikan penarikan dari pool pada backend."⟩,
        ([] : List Call)) :=
  rfl

/-- C9: build followed by sign is a deterministic pure function of the pool
address, recipient, minimal-unit amount and reference hash; re-running it on
identical inputs reproduces the submitted wire bytes exactly: the bytes
doWithdraw submits equal an independent recomputation of
`serializeSignedTx` at the same inputs, so two invocations with identical
inputs (identical hash included) are byte-identical. -/
theorem build_sign_deterministic (env : Script) (pool secret : List Nat) (sf : SignFn)
    (st : NetState) (r : String) (a : JsNum) (rb : List Nat) (bh : String) (l : Nat) (lam : Int)
    (hpk : parsePubkey r = some rb) (hbh : env.blockhash st.glb = .ok (bh, l))
    (hlam : jsNumToBigInt a = .ok lam) :
    (doWithdraw env pool secret sf st r a).2.2 =
      [Call.getLatestBlockhash,
       Call.sendRawTransaction (serializeSignedTx sf secret pool rb lam bh)] := by
  cases hs : env.send st.snd (serializeSignedTx sf secret pool rb lam bh) with
  | error m => rw [doWithdraw_send_error env pool secret sf st r a rb bh l lam m hpk hbh hlam hs]
  | ok sig => rw [doWithdraw_send_ok env pool secret sf st r a rb bh l lam sig hpk hbh hlam hs]

/-- C9 witness: the deterministic-bytes theorem evaluated on a concrete
environment and request. -/
theorem build_sign_deterministic_witness :
    (doWithdraw envBhOnly zeros32 zeros64 sfTest ⟨0, 0⟩ ones32 (JsNum.num 5)).2.2 =
      [Call.getLatestBlockhash,
       Call.sendRawTransaction (serializeSignedTx sfTest zeros64 zeros32 zeros32 5 "H1")] :=
  build_sign_deterministic envBhOnly zeros32 zeros64 sfTest ⟨0, 0⟩ ones32 (JsNum.num 5)
    zeros32 "H1" 100 5 (by decide) rfl (by decide)

/-- C6 (counterexample): with a well-formed 64-byte secret (deriving the
all-zero public key) and a configured POOL_ADDRESS decoding to a different
32-byte key, variant 1 startup succeeds — the claimed fatal mismatch check does
not exist; the mismatching configured address simply becomes POOL_PUBKEY. -/
theorem startup_mismatch_still_starts_cx :
    startupV1 idDerive (some ones64) (some addrOne) =
      .ok ⟨⟨zeros64, zeros32⟩, List.replicate 31 0 ++ [1]⟩
    ∧ (⟨zeros64, zeros32⟩ : Keypair).publicKey ≠ List.replicate 31 0 ++ [1] := by
  constructor
  · decide
  · decide

/-- C6 (amended): variant 1 performs no cross-check between the configured
expected pool address and the address derived from the secret: whenever the
secret decodes to 64 bytes and the configured address parses, startup succeeds
and the configured address is used as the pool public key — even when it
differs from the derived one; any mismatch is deferred to runtime. -/
theorem startup_no_crosscheck (derive : List Nat → List Nat) (s : String) (sk : List Nat)
    (a : String) (ab : List Nat)
    (hdec : b58decode s = some sk) (h64 : sk.length = 64)
    (ha : a ≠ "") (hab : parsePubkey a = some ab) :
    startupV1 derive (some s) (some a) = .ok ⟨⟨sk, sk.drop 32⟩, ab⟩ := by
  unfold startupV1 loadKeypairV1 fromSecretKey
  simp only [Option.getD_some]
  rw [hdec]
  dsimp only
  rw [if_neg (fun h => h.1 h64), if_pos h64, if_pos h64]
  dsimp only
  rw [if_neg ha, hab]

/-- C6 witness: the no-crosscheck theorem applied at the concrete mismatching
configuration. -/
theorem startup_no_crosscheck_witness :
    startupV1 idDerive (some ones64) (some addrOne) =
      .ok ⟨⟨zeros64, zeros64.drop 32⟩, List.replicate 31 0 ++ [1]⟩ :=
  startup_no_crosscheck idDerive ones64 zeros64 addrOne (List.replicate 31 0 ++ [1])
    (by decide) (by decide) (by decide) (by decide)

/-- C7: key custody accepts exactly the 64-byte raw secret and the 32-byte seed
and fails fast otherwise — true for the variant 1 loader (first three
conjuncts: 64-byte accepted, 32-byte seed accepted with derived keypair, unset
secret fatal), but the variant 2 loader contradicts its own length check
("must decode to 32 or 64 bytes"): a 32-byte secret passes that check and then
crashes in Keypair.fromSecretKey, which requires 64 bytes, so no keypair is
ever derived from a seed there (last conjunct evaluates the code at the
failing input). -/
theorem key_custody_seed_length_bug :
    (∀ derive : List Nat → List Nat,
      loadKeypairV1 derive (some ones64) = .ok ⟨zeros64, List.replicate 32 0⟩)
    ∧ (∀ derive : List Nat → List Nat,
      loadKeypairV1 derive (some ones32) =
        .ok ⟨List.replicate 32 0 ++ derive (List.replicate 32 0), derive (List.replicate 32 0)⟩)
    ∧ (∀ derive : List Nat → List Nat,
      loadKeypairV1 derive none = .error "POOL_SECRET_B58 must be base58 of 64 or 32 bytes")
    ∧ loadKeypairV2 (some ones32) = .error "bad secret key size" := by
  refine ⟨fun derive => ?_, fun derive => ?_, fun derive => ?_, by decide⟩
  · rfl
  · rfl
  · rfl

/-- C8 (counterexample): part_000's guard uses a post-increment comparison, so
with limit N = 2 a same-instant burst of N+1 = 3 requests in a fresh window is
admitted in full — zero rejections, not exactly one. -/
theorem p0_burst_no_rejection_cx :
    runGuards guardStepP0 2 ⟨0, 0⟩ (List.replicate 3 0) = (⟨0, 3⟩, [true, true, true])
    ∧ [true, true, true].count false = 0 := by
  constructor
  · decide
  · decide

/-- C8 (amended): for a same-instant burst of N+1 requests in a fresh window
with configured limit N, the server.js guard admits the first N and rejects
exactly the last one (one rejection), while the part_000 guard admits all N+1
(zero rejections; it would reject only from request N+2 on). -/
theorem burst_rate_limit_guards (N t : Nat) :
    runGuards guardStep N ⟨t, 0⟩ (List.replicate (N + 1) t) =
      (⟨t, N + 1⟩, List.replicate N true ++ [false])
    ∧ runGuards guardStepP0 N ⟨t, 0⟩ (List.replicate (N + 1) t) =
      (⟨t, N + 1⟩, List.replicate (N + 1) true)
    ∧ (List.replicate N true ++ [false]).count false = 1
    ∧ (List.replicate (N + 1) true).count false = 0 := by
  refine ⟨?_, ?_, ?_, ?_⟩
  · have h := runGuards_guardStep_all_admitted N t N 0 (by omega)
    rw [Nat.zero_add] at h
    rw [List.replicate_succ', runGuards_append, h]
    have hstep : guardStep N ⟨t, N⟩ t = (⟨t, N + 1⟩, false) := by
      unfold guardStep
      simp only [Nat.sub_self]
      rw [if_neg (by omega)]
      simp only [Prod.mk.injEq]
      refine ⟨trivial, ?_⟩
      rw [decide_eq_true (by omega : N + 1 > N)]
      rfl
    simp [runGuards, hstep]
  · have h := runGuards_guardStepP0_all_admitted N t (N + 1) 0 (by omega)
    rw [Nat.zero_add] at h
    exact h
  · rw [List.count_append, List.count_replicate]
    rfl
  · rw [List.count_replicate]
    rfl

/-- C1 (counterexample): the claim demands the retry behaviour at every
withdrawal entry point, but variant 2's handleWithdraw (serving /withdraw and
/relay/withdraw) performs no automatic retry: with a first submission rejected
by a hash-expiry-classified message ("block height exceeded"), exactly one
submission happens in total and the request ends as a plain 500 failure. -/
theorem handleWithdraw_expiry_no_retry_cx :
    handleWithdraw envV2Expiry sfTest kpTest 0 0 0 bodyV2Test =
      ((v2err 500 "block height exceeded",
        [Call.getLatestBlockhash,
         Call.sendRawTransaction (serializeTxV2 sfTest kpTest "H1" zeros32 1000000)]), 0)
    ∧ isExpiryMsg "block height exceeded" = true
    ∧ countSends
        [Call.getLatestBlockhash,
         Call.sendRawTransaction (serializeTxV2 sfTest kpTest "H1" zeros32 1000000)] = 1 := by
  refine ⟨?_, ?_, ?_⟩
  · decide
  · decide
  · decide

/-- C1 (amended): for the variant 1 handleRelay entry points (/relay,
/relay-withdraw, /withdraw), a first submission failing with a hash-expiry
classified error triggers exactly one automatic retry that rebuilds and
re-signs against the freshly fetched reference hash — the resubmitted bytes
differ whenever the fresh hash differs — and the trace holds exactly two
submissions; moreover no handleRelay execution ever submits more than twice.
Variant 2's handleWithdraw performs no such retry (see the counterexample). -/
theorem handleRelay_expiry_single_retry (env : Script) (pool secret : List Nat) (sf : SignFn)
    (limit : Nat) (g : GuardState) (now : Nat) (r : String) (a : JsNum) (rb : List Nat)
    (lam : Int) (h1 : String) (l1 : Nat) (m : String) (h2 : String) (l2 : Nat) (s2 : String)
    (hg : (guardStep limit g now).2 = true) (hr : r ≠ "")
    (hf : jsFalsy a = false) (hle : jsLeZero a = false)
    (hpk : parsePubkey r = some rb) (hlam : jsNumToBigInt a = .ok lam)
    (hb0 : env.blockhash 0 = .ok (h1, l1))
    (hs0 : env.send 0 (serializeSignedTx sf secret pool rb lam h1) = .error m)
    (hm : isExpiryMsg m = true)
    (hb1 : env.blockhash 1 = .ok (h2, l2))
    (hs1 : env.send 1 (serializeSignedTx sf secret pool rb lam h2) = .ok s2) :
    handleRelay env pool secret sf limit g now (some r) (some a) =
      (.ok s2 l2 (some 1),
        [Call.getLatestBlockhash,
         Call.sendRawTransaction (serializeSignedTx sf secret pool rb lam h1),
         Call.getLatestBlockhash,
         Call.sendRawTransaction (serializeSignedTx sf secret pool rb lam h2)],
        (guardStep limit g now).1)
    ∧ (h1 ≠ h2 →
        serializeSignedTx sf secret pool rb lam h1 ≠ serializeSignedTx sf secret pool rb lam h2)
    ∧ countSends
        [Call.getLatestBlockhash,
         Call.sendRawTransaction (serializeSignedTx sf secret pool rb lam h1),
         Call.getLatestBlockhash,
         Call.sendRawTransaction (serializeSignedTx sf secret pool rb lam h2)] = 2
    ∧ (∀ (env2 : Script) (pool2 secret2 : List Nat) (sf2 : SignFn) (limit2 : Nat)
         (g2 : GuardState) (now2 : Nat) (rec2 : Option String) (amt2 : Option JsNum),
         countSends (handleRelay env2 pool2 secret2 sf2 limit2 g2 now2 rec2 amt2).2.1 ≤ 2) := by
  refine ⟨?_, ?_, ?_, ?_⟩
  · rw [handleRelay_valid env pool secret sf limit g now r a hg hr hf hle,
      relayCore_retry_ok env pool secret sf r a rb lam h1 l1 m h2 l2 s2 hpk hlam hb0 hs0 hm hb1 hs1]
  · intro hne heq
    exact hne (serializeSignedTx_hash_inj sf secret pool rb lam h1 h2 heq)
  · simp [countSends, isSendCall]
  · intro env2 pool2 secret2 sf2 limit2 g2 now2 rec2 amt2
    exact handleRelay_sends_le_two env2 pool2 secret2 sf2 limit2 g2 now2 rec2 amt2

/-- C1 witness: the retry theorem evaluated on a concrete environment whose
first send is rejected with "Blockhash not found" and whose retry succeeds. -/
theorem handleRelay_expiry_single_retry_witness :
    handleRelay envRetry zeros32 zeros64 sfTest 8 ⟨0, 0⟩ 0 (some ones32) (some (JsNum.num 5)) =
      (.ok "SIG2" 200 (some 1),
        [Call.getLatestBlockhash,
         Call.sendRawTransaction (serializeSignedTx sfTest zeros64 zeros32 zeros32 5 "H1"),
         Call.getLatestBlockhash,
         Call.sendRawTransaction (serializeSignedTx sfTest zeros64 zeros32 zeros32 5 "H2")],
        ⟨0, 1⟩)
    ∧ serializeSignedTx sfTest zeros64 zeros32 zeros32 5 "H1" ≠
        serializeSignedTx sfTest zeros64 zeros32 zeros32 5 "H2" := by
  have h := handleRelay_expiry_single_retry envRetry zeros32 zeros64 sfTest 8 ⟨0, 0⟩ 0
    ones32 (JsNum.num 5) zeros32 5 "H1" 100 "Blockhash not found" "H2" 200 "SIG2"
    (by decide) (by decide) (by decide) (by decide) (by decide) (by decide)
    rfl rfl (by decide) rfl rfl
  exact ⟨h.1, h.2.1 (by decide)⟩

/-- C2: when the broadcast succeeds but confirmation polling exhausts its 60s
budget without ever observing a confirmed or finalized status, handleWithdraw
answers a 200 soft success carrying the broadcast signature together with the
explicit pending note — never a plain failure — and every confirmation poll in
the trace queries exactly the broadcast signature (polling is by signature
alone). The variant 1 handleRelay path never polls at all, so the claim is
vacuous there. -/
theorem withdraw_timeout_soft_success (env : ScriptV2) (sf : SignFn) (kp : Keypair)
    (mg lt now : Nat) (b : BodyV2) (lam : Int) (pk : List Nat) (bh sig : String) (nl : Nat)
    (hrate : checkRateLimit mg lt now = .ok nl)
    (ht : v2Target b ≠ "")
    (hl : v2Lamports b = .ok lam)
    (hpos : 0 < lam)
    (hpk : parsePubkey (v2Target b) = some pk)
    (hbh : env.blockhash = .ok bh)
    (hsend : env.send (serializeTxV2 sf kp bh pk lam) = .ok sig)
    (hstat : ∀ i, isFinalStatus (env.statuses i) = false) :
    handleWithdraw env sf kp mg lt now b =
      ((v2ok sig (some "Broadcasted, confirmation pending on-chain."),
        Call.getLatestBlockhash :: Call.sendRawTransaction (serializeTxV2 sf kp bh pk lam) ::
          List.replicate 40 (Call.getSignatureStatuses sig)), nl)
    ∧ (∀ s, Call.getSignatureStatuses s ∈ (handleWithdraw env sf kp mg lt now b).1.2 →
        s = sig) := by
  have hmain := handleWithdraw_timeout_soft env sf kp mg lt now b lam pk bh sig nl
    hrate ht hl hpos hpk hbh hsend hstat
  refine ⟨hmain, ?_⟩
  intro s hs
  rw [hmain] at hs
  simp only [List.mem_cons, List.mem_replicate] at hs
  rcases hs with h | h | ⟨-, h⟩
  · exact Call.noConfusion h
  · exact Call.noConfusion h
  · exact Call.getSignatureStatuses.inj h

/-- C2 witness: the soft-success theorem evaluated on a concrete environment
whose polls never return a final status. -/
theorem withdraw_timeout_soft_success_witness :
    handleWithdraw envV2Timeout sfTest kpTest 0 5 10 bodyV2Test =
      ((v2ok "SIGX" (some "Broadcasted, confirmation pending on-chain."),
        Call.getLatestBlockhash ::
          Call.sendRawTransaction (serializeTxV2 sfTest kpTest "HH" zeros32 1000000) ::
            List.replicate 40 (Call.getSignatureStatuses "SIGX")), 5) :=
  (withdraw_timeout_soft_success envV2Timeout sfTest kpTest 0 5 10 bodyV2Test 1000000
    zeros32 "HH" "SIGX" 5 (by decide) (by decide) (by decide) (by decide) (by decide)
    rfl rfl (fun _ => rfl)).1

/-- C3 (counterexample): a non-empty recipient that fails address parsing gets
HTTP 502 from handleRelay (variant 1 /withdraw and aliases), not the claimed
400 — although indeed with zero network calls. -/
theorem invalid_recipient_502_cx :
    handleRelay envNull zeros32 zeros64 sfTest 8 ⟨0, 0⟩ 0 (some "bad!addr") (some (JsNum.num 5)) =
      (.fail 502 "Invalid public key input", [], ⟨0, 1⟩)
    ∧ parsePubkey "bad!addr" = none
    ∧ (RelayResp.fail 502 "Invalid public key input").status ≠ 400 := by
  refine ⟨?_, ?_, ?_⟩
  · decide
  · decide
  · decide

/-- C3 (amended): a recipient that fails address parsing never triggers a
network call, but the status is 400 only when the recipient is missing or
empty; a non-empty unparseable recipient is answered 502 by handleRelay and 500
by handleWithdraw (the parse error is thrown inside the orchestration and
caught by the generic handler). -/
theorem invalid_recipient_no_network_calls :
    (∀ (env : Script) (pool secret : List Nat) (sf : SignFn) (limit : Nat) (g : GuardState)
       (now : Nat) (r : String) (a : JsNum),
       (guardStep limit g now).2 = true → r ≠ "" → parsePubkey r = none →
       jsFalsy a = false → jsLeZero a = false →
       handleRelay env pool secret sf limit g now (some r) (some a) =
         (.fail 502 "Invalid public key input", [], (guardStep limit g now).1))
    ∧ (∀ (env : ScriptV2) (sf : SignFn) (kp : Keypair) (mg lt now : Nat) (b : BodyV2)
         (lam : Int) (nl : Nat),
         checkRateLimit mg lt now = .ok nl → v2Target b ≠ "" → v2Lamports b = .ok lam →
         0 < lam → parsePubkey (v2Target b) = none →
         handleWithdraw env sf kp mg lt now b = ((v2err 500 "Invalid public key input", []), nl))
    ∧ (∀ (env : Script) (pool secret : List Nat) (sf : SignFn) (limit : Nat) (g : GuardState)
         (now : Nat) (a : Option JsNum),
         (guardStep limit g now).2 = true →
         handleRelay env pool secret sf limit g now (some "") a =
           (.fail 400 "recipient required", [], (guardStep limit g now).1)) := by
  refine ⟨?_, ?_, ?_⟩
  · intro env pool secret sf limit g now r a hg hr hpk hf hle
    rw [handleRelay_valid env pool secret sf limit g now r a hg hr hf hle,
      relayCore_error_final env pool secret sf r a "Invalid public key input" ⟨0, 0⟩ []
        (doWithdraw_badRecipient env pool secret sf ⟨0, 0⟩ r a hpk) (by decide)]
  · intro env sf kp mg lt now b lam nl hrate ht hl hpos hpk
    exact handleWithdraw_badTarget env sf kp mg lt now b lam nl hrate ht hl hpos hpk
  · intro env pool secret sf limit g now a hg
    unfold handleRelay
    simp only [hg, if_true, Option.getD_some]

/-- C3 witness: both failure shapes evaluated concretely — an unparseable
non-empty recipient through handleRelay (502, no calls) and through
handleWithdraw (500, no calls). -/
theorem invalid_recipient_no_network_calls_witness :
    handleRelay envNull zeros32 zeros64 sfTest 8 ⟨0, 0⟩ 0 (some "notbase58x") (some (JsNum.num 5)) =
      (.fail 502 "Invalid public key input", [], ⟨0, 1⟩)
    ∧ handleWithdraw envV2Timeout sfTest kpTest 0 5 10 ⟨some "notbase58x", none, none,
        some (JsNum.num 1000000)⟩ = ((v2err 500 "Invalid public key input", []), 5) :=
  ⟨invalid_recipient_no_network_calls.1 envNull zeros32 zeros64 sfTest 8 ⟨0, 0⟩ 0
      "notbase58x" (JsNum.num 5) (by decide) (by decide) (by decide) (by decide) (by decide),
    invalid_recipient_no_network_calls.2.1 envV2Timeout sfTest kpTest 0 5 10
      ⟨some "notbase58x", none, none, some (JsNum.num 1000000)⟩ 1000000 5
      (by decide) (by decide) (by decide) (by decide) (by decide)⟩

/-- C4 (counterexample): a positive infinite amount is non-finite, yet it passes
handleRelay validation (no 400) and a network call — the blockhash fetch — is
issued before the transfer encoding throws; the request ends 502 with one call
on the wire, contradicting both claimed conjuncts (rejection of non-finite
amounts with zero network calls, and accepted amounts being safe positive
integers). -/
theorem infinite_amount_network_call_cx :
    handleRelay envBhOnly zeros32 zeros64 sfTest 8 ⟨0, 0⟩ 0 (some ones32) (some JsNum.inf) =
      (.fail 502 "Cannot convert Infinity to a BigInt", [Call.getLatestBlockhash], ⟨0, 1⟩)
    ∧ jsFinite JsNum.inf = false
    ∧ (RelayResp.fail 502 "Cannot convert Infinity to a BigInt").status ≠ 400
    ∧ ([Call.getLatestBlockhash] : List Call) ≠ [] := by
  refine ⟨?_, ?_, ?_, ?_⟩
  · decide
  · decide
  · decide
  · decide

/-- C4 (amended): amounts that are falsy (0, NaN, missing) or compare ≤ 0 are
rejected with HTTP 400 and zero network calls; but a positive infinite amount
passes handleRelay validation, a blockhash fetch is issued, and the request
fails 502 from the transfer encoding rather than as a validation failure — so
accepted amounts are not constrained to finite safe-range integers by
validation. -/
theorem amount_validation_gap :
    (∀ (env : Script) (pool secret : List Nat) (sf : SignFn) (limit : Nat) (g : GuardState)
       (now : Nat) (rec : Option String) (a : JsNum),
       (guardStep limit g now).2 = true → (jsFalsy a || jsLeZero a) = true →
       (handleRelay env pool secret sf limit g now rec (some a)).1.status = 400 ∧
       (handleRelay env pool secret sf limit g now rec (some a)).2.1 = [])
    ∧ (∀ (env : Script) (pool secret : List Nat) (sf : SignFn) (limit : Nat) (g : GuardState)
         (now : Nat) (r : String) (rb : List Nat) (bh : String) (l : Nat),
         (guardStep limit g now).2 = true → r ≠ "" → parsePubkey r = some rb →
         env.blockhash 0 = .ok (bh, l) →
         handleRelay env pool secret sf limit g now (some r) (some JsNum.inf) =
           (.fail 502 "Cannot convert Infinity to a BigInt", [Call.getLatestBlockhash],
             (guardStep limit g now).1)) := by
  constructor
  · intro env pool secret sf limit g now rec a hg ha
    unfold handleRelay
    simp only [hg, if_true]
    by_cases hrec : rec.getD "" = ""
    · rw [if_pos hrec]
      exact ⟨rfl, rfl⟩
    · rw [if_neg hrec]
      have hcond : (optFalsy (some a) || optLeZero (some a)) = true := ha
      rw [if_pos hcond]
      exact ⟨rfl, rfl⟩
  · intro env pool secret sf limit g now r rb bh l hg hr hpk hbh
    rw [handleRelay_valid env pool secret sf limit g now r JsNum.inf hg hr rfl rfl,
      relayCore_error_final env pool secret sf r JsNum.inf "Cannot convert Infinity to a BigInt"
        ⟨1, 0⟩ [Call.getLatestBlockhash]
        (doWithdraw_badAmount env pool secret sf ⟨0, 0⟩ r JsNum.inf rb bh l
          "Cannot convert Infinity to a BigInt" hpk hbh rfl) (by decide)]

/-- C4 witness: the amended theorem evaluated concretely — a negative amount is
rejected 400 with no calls, and an infinite amount reaches the network once. -/
theorem amount_validation_gap_witness :
    ((handleRelay envNull zeros32 zeros64 sfTest 8 ⟨0, 0⟩ 0 (some ones32)
        (some (JsNum.num (-5)))).1.status = 400 ∧
      (handleRelay envNull zeros32 zeros64 sfTest 8 ⟨0, 0⟩ 0 (some ones32)
        (some (JsNum.num (-5)))).2.1 = [])
    ∧ handleRelay envBhOnly zeros32 zeros64 sfTest 8 ⟨0, 0⟩ 0 (some ones32) (some JsNum.inf) =
        (.fail 502 "Cannot convert Infinity to a BigInt", [Call.getLatestBlockhash], ⟨0, 1⟩) :=
  ⟨amount_validation_gap.1 envNull zeros32 zeros64 sfTest 8 ⟨0, 0⟩ 0 (some ones32)
      (JsNum.num (-5)) (by decide) (by decide),
    amount_validation_gap.2 envBhOnly zeros32 zeros64 sfTest 8 ⟨0, 0⟩ 0 ones32 zeros32
      "H1" 100 (by decide) (by decide) (by decide) rfl⟩

/-- C5 (counterexample): a rate-denied request never reaches the orchestrator
(empty trace) but is answered 502 from the generic catch, not the claimed 409. -/
theorem rate_denied_502_cx :
    handleRelay envNull zeros32 zeros64 sfTest 1 ⟨0, 1⟩ 500 (some ones32) (some (JsNum.num 5)) =
      (.fail 502 "Rate limit", [], ⟨0, 2⟩)
    ∧ (guardStep 1 ⟨0, 1⟩ 500).2 = false
    ∧ (RelayResp.fail 502 "Rate limit").status ≠ 409 := by
  refine ⟨?_, ?_, ?_⟩
  · decide
  · decide
  · decide

/-- C5 (amended): when the rate admission gate denies a request, the
orchestrator is never invoked — no blockhash fetch, no build, sign or submit
(empty network trace) — but the caller receives HTTP 502 with error
"Rate limit" from handleRelay (and HTTP 500 from handleWithdraw), not 409. -/
theorem rate_denied_no_orchestration :
    (∀ (env : Script) (pool secret : List Nat) (sf : SignFn) (limit : Nat) (g : GuardState)
       (now : Nat) (rec : Option String) (amt : Option JsNum),
       (guardStep limit g now).2 = false →
       handleRelay env pool secret sf limit g now rec amt =
         (.fail 502 "Rate limit", [], (guardStep limit g now).1))
    ∧ (∀ (env : ScriptV2) (sf : SignFn) (kp : Keypair) (mg lt now : Nat) (b : BodyV2)
         (m : String),
         checkRateLimit mg lt now = .error m →
         handleWithdraw env sf kp mg lt now b = ((v2err 500 m, []), lt)) := by
  constructor
  · intro env pool secret sf limit g now rec amt hg
    unfold handleRelay
    simp only [hg, Bool.false_eq_true, if_false]
  · intro env sf kp mg lt now b m hm
    unfold handleWithdraw
    rw [hm]

/-- C5 witness: both denial shapes evaluated concretely. -/
theorem rate_denied_no_orchestration_witness :
    handleRelay envNull zeros32 zeros64 sfTest 1 ⟨0, 1⟩ 500 (some ones32) (some (JsNum.num 5)) =
      (.fail 502 "Rate limit", [], ⟨0, 2⟩)
    ∧ handleWithdraw envV2Timeout sfTest kpTest 8 1000 2000 bodyV2Test =
        ((v2err 500 "Too many requests, wait 7s", []), 1000) :=
  ⟨rate_denied_no_orchestration.1 envNull zeros32 zeros64 sfTest 1 ⟨0, 1⟩ 500
      (some ones32) (some (JsNum.num 5)) (by decide),
    rate_denied_no_orchestration.2 envV2Timeout sfTest kpTest 8 1000 2000 bodyV2Test
      "Too many requests, wait 7s" (by decide)⟩
